import Mathlib

/-!
Shallow embedding of the human–AI policy-decision experiment of `src/main.py`
(a single-file Streamlit application).

Modelling conventions:
* Python text is modelled as `List Char` (abbreviated `Str`); Lean `String`
  operations do not reduce in the kernel, so every textual operation of the
  source is re-implemented on character lists (lower-casing, trimming,
  splitting, substring tests, integer parsing).  Lower-casing is ASCII,
  matching the keyword matching the program actually performs on its ASCII
  keywords.
* A CSV row (a `csv.DictReader` dict) is an association list from column name
  to cell text; a missing key models both an absent column (Python `KeyError`)
  and a `None` cell (Python `TypeError` on use) — either aborts loading.
* Python exceptions are modelled by `Option`: a function that can raise
  returns `none` where the Python code would propagate an exception.
* The Streamlit `st.session_state` dicts are association lists where the most
  recent write is found first (`alist_get` returns the first match and
  `alist_set` prepends, reproducing dict overwrite semantics).
* The network call of `generate_ai_reply` (lines 161-171) is modelled by a
  `TransportResult` input: `failure e` is any exception raised inside the
  `try` block (stringified as `e`), `success m` is a decoded JSON body whose
  optional `"message"` field has an optional `"content"` field.
-/

/-! ## Text primitives (Python string operations on `List Char`) -/

abbrev Str := List Char

/-- Python `str.lower` (ASCII letters). -/
def lower (s : Str) : Str := s.map Char.toLower

/-- Python `needle in hay` substring test. -/
def isSubstr (needle hay : Str) : Bool :=
  match hay with
  | [] => needle.isEmpty
  | _ :: t => needle.isPrefixOf hay || isSubstr needle t

/-- Python `str.strip()`: remove leading and trailing whitespace. -/
def trimStr (s : Str) : Str :=
  ((s.dropWhile Char.isWhitespace).reverse.dropWhile Char.isWhitespace).reverse

/-- Numeric value of a big-endian digit string. -/
def digitsToNat (s : Str) : Nat := s.foldl (fun acc c => acc * 10 + (c.toNat - '0'.toNat)) 0

/-- Python `int(s)` on decimal text: strip whitespace, optional sign, digits;
`none` models the `ValueError` raised on anything else. -/
def pyInt (s : Str) : Option Int :=
  match trimStr s with
  | '-' :: ds => if ds ≠ [] ∧ ds.all Char.isDigit then some (-(digitsToNat ds : Int)) else none
  | '+' :: ds => if ds ≠ [] ∧ ds.all Char.isDigit then some ((digitsToNat ds : Int)) else none
  | ds => if ds ≠ [] ∧ ds.all Char.isDigit then some ((digitsToNat ds : Int)) else none

/-- The characters after the first occurrence of `c`, if `c` occurs:
`some rest` means Python `s.split(c, 1)[1] = rest`. -/
def afterFirst (c : Char) (s : Str) : Option Str :=
  match s with
  | [] => none
  | x :: t => if x = c then some t else afterFirst c t

/-- Association-list lookup where the first (most recently written) binding
wins; models reading a Python dict together with `alist_set`. -/
def alist_get {κ α : Type} [DecidableEq κ] (d : List (κ × α)) (k : κ) : Option α :=
  (d.find? (fun p => p.1 = k)).map (·.2)

/-- Association-list write: prepend, so the newest binding shadows older ones
(Python dict assignment). -/
def alist_set {κ α : Type} [DecidableEq κ] (d : List (κ × α)) (k : κ) (v : α) :
    List (κ × α) :=
  (k, v) :: d

/-! ## Data models (`src/main.py` lines 20-43) -/

/-- `Outcome` dataclass (lines 20-26). -/
structure Outcome where
  safety : Int
  equity : Int
  cost : Int
  political : Int
  total : Int
deriving DecidableEq

/-- `Scenario` dataclass (lines 28-36); `outcomes` is the dict keyed by
`"A"`/`"B"`/`"C"`/`"D"`. -/
structure Scenario where
  round_num : Int
  scenario_id : Str
  title : Str
  options_text : Str
  human_private_info : Str
  ai_private_info : Str
  outcomes : List (Str × Outcome)
deriving DecidableEq

/-- `TeamMemory` dataclass (lines 39-43). -/
structure TeamMemory where
  explanation_length : Str
  focus_equity : Bool
  user_instructions : List Str
deriving DecidableEq

/-- The dataclass defaults: `TeamMemory()`. -/
def TeamMemory.initial : TeamMemory :=
  { explanation_length := "medium".toList, focus_equity := false, user_instructions := [] }

/-! ## CSV loading (`src/main.py` lines 48-103) -/

/-- The `values` dict built by the parsing loop of `parse_outcome_cell`
(lines 57-61): split the cell on `','`, split each part on `'='` (exactly one
`'='`, else Python unpacking raises), strip the key, `int(...)` the value.
`none` models any exception raised in the loop. -/
def outcome_values (cell : Str) : Option (List (Str × Int)) :=
  (cell.splitOn ',').foldlM
    (fun acc part =>
      match part.splitOn '=' with
      | [k, v] =>
          match pyInt (trimStr v) with
          | some n => some (alist_set acc (trimStr k) n)
          | none => none
      | _ => none)
    []

/-- The prefix removal of lines 55-56: drop everything up to the first `':'`
(stripping the remainder) if one occurs. -/
def cell_body (cell : Str) : Str :=
  match afterFirst ':' cell with
  | some rest => trimStr rest
  | none => cell

/-- `parse_outcome_cell` (lines 48-68): remove the label prefix, build the
`values` dict, and read the five required keys; `none` models the
`ValueError`/`KeyError` the Python code raises on malformed cells. -/
def parse_outcome_cell (cell : Str) : Option Outcome :=
  match outcome_values (cell_body cell) with
  | none => none
  | some values =>
      match alist_get values "safety".toList, alist_get values "equity".toList,
            alist_get values "cost".toList, alist_get values "political".toList,
            alist_get values "total".toList with
      | some safety, some equity, some cost, some political, some total =>
          some { safety := safety, equity := equity, cost := cost,
                 political := political, total := total }
      | _, _, _, _, _ => none

/-- One `csv.DictReader` row: column name to cell text. -/
abbrev Row := List (Str × Str)

/-- The loop body of `load_scenarios` (lines 75-100) for one row; `none`
models the exception raised on a missing column, a non-integer `round`, or an
unparsable outcome cell (the Python code fails at the first bad component;
the result is `none` in every such case, so the components are matched
together). -/
def row_to_scenario (row : Row) : Option Scenario :=
  match alist_get row "round".toList, alist_get row "scenario_id".toList,
        alist_get row "scenario_title".toList, alist_get row "options".toList,
        alist_get row "human_private_info".toList,
        alist_get row "ai_private_info".toList,
        alist_get row "option_A_outcome".toList,
        alist_get row "option_B_outcome".toList,
        alist_get row "option_C_outcome".toList,
        alist_get row "option_D_outcome".toList with
  | some roundCell, some scenario_id, some title, some options_text,
    some human_info, some ai_info, some cellA, some cellB, some cellC,
    some cellD =>
      match pyInt roundCell, parse_outcome_cell cellA, parse_outcome_cell cellB,
            parse_outcome_cell cellC, parse_outcome_cell cellD with
      | some round_num, some oA, some oB, some oC, some oD =>
          some { round_num := round_num, scenario_id := scenario_id,
                 title := title, options_text := options_text,
                 human_private_info := human_info, ai_private_info := ai_info,
                 outcomes := [("A".toList, oA), ("B".toList, oB),
                              ("C".toList, oC), ("D".toList, oD)] }
      | _, _, _, _, _ => none
  | _, _, _, _, _, _, _, _, _, _ => none

/-- The row loop of `load_scenarios`: convert every row in order, failing if
any row fails. -/
def load_rows : List Row → Option (List Scenario)
  | [] => some []
  | row :: rest =>
      match row_to_scenario row with
      | none => none
      | some sc =>
          match load_rows rest with
          | none => none
          | some scs => some (sc :: scs)

/-- Sort key of `scenarios.sort(key=lambda s: s.round_num)` (line 102). -/
def scenarioLE (a b : Scenario) : Prop := a.round_num ≤ b.round_num

instance : DecidableRel scenarioLE := fun a b => Int.decLe a.round_num b.round_num

instance : IsTotal Scenario scenarioLE := ⟨fun a b => Int.le_total a.round_num b.round_num⟩

instance : IsTrans Scenario scenarioLE := ⟨fun _ _ _ => Int.le_trans⟩

/-- `load_scenarios` (lines 71-103): parse every row, then stable-sort by
`round_num` (Python `list.sort` is a stable ascending sort, as is
`List.insertionSort`). -/
def load_scenarios (rows : List Row) : Option (List Scenario) :=
  (load_rows rows).map (List.insertionSort scenarioLE)

/-! ## Prompt construction and the gateway call (`src/main.py` lines 108-171) -/

/-- Fixed prompt text before the AI-private memo (lines 119-122). -/
def prompt_header : Str :=
  ("You are an AI policy teammate in a research experiment.\n"
   ++ "You only see the following *technical memo* about this scenario "
   ++ "and NOT the human\x27s stakeholder memo.\n\n"
   ++ "Technical memo:\n").toList

/-- Fixed prompt text after the AI-private memo (lines 123-127). -/
def prompt_role : Str :=
  ("\n\nYour role:\n"
   ++ "- Collaborate with the human.\n"
   ++ "- Offer reasoning and trade-offs between options A/B/C/D.\n"
   ++ "- Do NOT make the final decision; the human decides.\n"
   ++ "- Be honest that you only see technical data.\n").toList

/-- Equity directive appended when `focus_equity` holds (lines 130-134). -/
def equity_directive : Str :=
  ("\nThe human has asked you to pay particular attention to equity "
   ++ "and distributional impacts when relevant.\n").toList

/-- Length directive of the `short` branch (line 137). -/
def short_directive : Str := "\nKeep replies concise (2–3 sentences).\n".toList

/-- Length directive of the `long` branch (line 139). -/
def long_directive : Str := "\nGive more detailed reasoning (4–6 sentences).\n".toList

/-- Length directive of the default branch (line 141). -/
def medium_directive : Str := "\nUse a moderate level of detail (3–4 sentences).\n".toList

/-- The `system_prompt` built at lines 118-141 of `generate_ai_reply`:
the fixed preamble with the scenario's AI-private text interpolated, then the
optional equity directive, then a three-way branch on `explanation_length`. -/
def system_prompt (scenario : Scenario) (team_memory : TeamMemory) : Str :=
  let p := prompt_header ++ scenario.ai_private_info ++ prompt_role
  let p := if team_memory.focus_equity then p ++ equity_directive else p
  if team_memory.explanation_length = "short".toList then p ++ short_directive
  else if team_memory.explanation_length = "long".toList then p ++ long_directive
  else p ++ medium_directive

/-- Message roles of the Ollama chat payload. -/
inductive MsgRole where
  | system
  | user
  | assistant
deriving DecidableEq

/-- The `messages` list built at lines 144-153: the system prompt, the prior
turns mapped `participant`→`user` / otherwise→`assistant`, then the newest
human message. -/
def build_messages (sp : Str) (chat_history : List (Str × Str)) (user_message : Str) :
    List (MsgRole × Str) :=
  (MsgRole.system, sp) ::
    (chat_history.map (fun turn =>
      if turn.1 = "participant".toList then (MsgRole.user, turn.2)
      else (MsgRole.assistant, turn.2)))
  ++ [(MsgRole.user, user_message)]

/-- Environment response to the HTTP POST of lines 161-166: `failure e` is any
exception raised inside the `try` block (its message rendered as `e`);
`success m` is a decoded body whose optional `"message"` object has an
optional `"content"` string. -/
inductive TransportResult where
  | failure (err : Str)
  | success (message : Option (Option Str))
deriving DecidableEq

/-- Reply-normalization of lines 161-171: on success take
`data.get("message", {}).get("content", "").strip()` and substitute the
no-content sentinel when empty; on any exception return the in-band error
marker built from the exception text. -/
def extract_ai_text (r : TransportResult) : Str :=
  match r with
  | TransportResult.failure e =>
      "[Error contacting AI teammate: ".toList ++ e ++ "]".toList
  | TransportResult.success m =>
      let ai_text := trimStr ((m.getD none).getD [])
      if ai_text = [] then "[AI did not return any content.]".toList else ai_text

/-- `generate_ai_reply` (lines 108-171): builds the system prompt and payload,
posts it, and normalizes the reply.  The returned text depends only on the
environment's `TransportResult`; the request it answers is
`build_messages (system_prompt scenario team_memory) chat_history user_message`. -/
def generate_ai_reply (scenario : Scenario) (team_memory : TeamMemory)
    (chat_history : List (Str × Str)) (user_message : Str)
    (transport : TransportResult) : Str :=
  let _payload :=
    build_messages (system_prompt scenario team_memory) chat_history user_message
  extract_ai_text transport

/-! ## Team memory update (`src/main.py` lines 176-188) -/

/-- `update_team_memory` (lines 176-188), written as a pure state transform
(the Python function mutates `memory` in place and returns it). -/
def update_team_memory (memory : TeamMemory) (instruction : Str) : TeamMemory :=
  let text := lower instruction
  let memory :=
    { memory with user_instructions := memory.user_instructions ++ [instruction] }
  let memory :=
    if isSubstr "short".toList text || isSubstr "concise".toList text
        || isSubstr "brief".toList text then
      { memory with explanation_length := "short".toList }
    else if isSubstr "more detail".toList text || isSubstr "longer".toList text
        || isSubstr "explain more".toList text then
      { memory with explanation_length := "long".toList }
    else memory
  if isSubstr "equity".toList text || isSubstr "fairness".toList text
      || isSubstr "fair".toList text then
    { memory with focus_equity := true }
  else memory

/-- The shorten-family condition of line 180. -/
def shortMatches (instruction : Str) : Bool :=
  let text := lower instruction
  isSubstr "short".toList text || isSubstr "concise".toList text
    || isSubstr "brief".toList text

/-- The lengthen-family condition of line 182. -/
def longMatches (instruction : Str) : Bool :=
  let text := lower instruction
  isSubstr "more detail".toList text || isSubstr "longer".toList text
    || isSubstr "explain more".toList text

/-- The equity-family condition of line 185. -/
def equityMatches (instruction : Str) : Bool :=
  let text := lower instruction
  isSubstr "equity".toList text || isSubstr "fairness".toList text
    || isSubstr "fair".toList text

/-- An instruction matches some length keyword (either family). -/
def matchesLengthKeyword (instruction : Str) : Bool :=
  shortMatches instruction || longMatches instruction

/-! ## Session log (`src/main.py` lines 193-244) -/

/-- The header row written by `init_log` (lines 198-213). -/
def LOG_HEADER : List Str :=
  ["timestamp", "participant_id", "round_num", "scenario_id", "choice",
   "safety", "equity", "cost", "political", "total",
   "chat_history_json", "instruction_text"].map String.toList

/-- The log destination: `none` when the file does not exist, otherwise the
list of its rows. -/
abbrev LogFile := Option (List (List Str))

/-- `init_log` (lines 193-216): open with mode `"x"` and write the header row;
`FileExistsError` on an existing file is swallowed, leaving it untouched. -/
def init_log (f : LogFile) : LogFile :=
  match f with
  | none => some [LOG_HEADER]
  | some rows => some rows

/-- The row assembled by `log_round` (lines 228-241), kept structured;
`chat_history` stands for the JSON-serialized turn list of column 11. -/
structure RoundRecord where
  timestamp : Str
  participant_id : Str
  round_num : Int
  scenario_id : Str
  choice : Str
  safety : Int
  equity : Int
  cost : Int
  political : Int
  total : Int
  chat_history : List (Str × Str)
  instruction_text : Str
deriving DecidableEq

/-- `log_round` (lines 219-244): the one record appended for a completed
round; `timestamp` is the `time.strftime` value supplied by the environment. -/
def log_round (participant_id : Str) (scenario : Scenario) (choice : Str)
    (outcome : Outcome) (chat_history : List (Str × Str))
    (instruction_text : Str) (timestamp : Str) : RoundRecord :=
  { timestamp := timestamp, participant_id := participant_id,
    round_num := scenario.round_num, scenario_id := scenario.scenario_id,
    choice := choice, safety := outcome.safety, equity := outcome.equity,
    cost := outcome.cost, political := outcome.political,
    total := outcome.total, chat_history := chat_history,
    instruction_text := instruction_text }

/-! ## Session state and per-round steps (`src/main.py` lines 249-457) -/

/-- The `st.session_state` fields used by the engine (`init_session_state`,
lines 249-272), plus the records appended so far to the log destination. -/
structure SessionState where
  participant_id : Str
  scenarios : List Scenario
  current_round : Nat
  team_memory : TeamMemory
  total_score : Int
  chat_histories : List (Int × List (Str × Str))
  decisions : List (Int × Str)
  instructions : List (Int × Str)
  experiment_started : Bool
  experiment_complete : Bool
  log : List RoundRecord
deriving DecidableEq

/-- The state set up by `init_session_state` before any user action. -/
def initial_session : SessionState :=
  { participant_id := [], scenarios := [], current_round := 0,
    team_memory := TeamMemory.initial, total_score := 0,
    chat_histories := [], decisions := [], instructions := [],
    experiment_started := false, experiment_complete := false, log := [] }

/-- The fixed valid decision labels: one per button of
`render_decision_interface` (lines 356-402). -/
def validLabels : List Str :=
  ["A".toList, "B".toList, "C".toList, "D".toList]

/-- The `Start Experiment` handler of `render_welcome_page` (lines 294-308):
strip the participant id (defaulting to `"anonymous"`), then try to load the
scenarios; on any exception an error is shown and `experiment_started` stays
false. -/
def start_experiment (participant_input : Str) (rows : List Row) : SessionState :=
  let pid := if trimStr participant_input ≠ [] then trimStr participant_input
             else "anonymous".toList
  match load_scenarios rows with
  | some scs =>
      { initial_session with participant_id := pid, scenarios := scs,
                             current_round := 0, experiment_started := true }
  | none => { initial_session with participant_id := pid }

/-- One submitted chat message in `render_chat_interface` (lines 311-353):
the guard `if user_message:` skips empty input; otherwise the participant turn
is appended, the AI reply is generated against the history excluding the
just-added message, and the AI turn is appended. -/
def render_chat_step (st : SessionState) (scenario : Scenario)
    (user_message : Str) (transport : TransportResult) : SessionState :=
  if user_message = [] then st
  else
    let chat_history := (alist_get st.chat_histories scenario.round_num).getD []
    let chat_history := chat_history ++ [("participant".toList, user_message)]
    let ai_reply := generate_ai_reply scenario st.team_memory
      chat_history.dropLast user_message transport
    let chat_history := chat_history ++ [("ai".toList, ai_reply)]
    { st with chat_histories :=
        alist_set st.chat_histories scenario.round_num chat_history }

/-- One option-button press in `render_decision_interface` (lines 356-402).
The four handlers are identical up to the letter; a label with no button is a
no-op.  Inside a handler the decision is stored before the outcome lookup and
the score update, exactly as in the source. -/
def press_option (st : SessionState) (scenario : Scenario) (label : Str) :
    SessionState :=
  if label ∈ validLabels then
    if alist_get st.decisions scenario.round_num = none then
      let st' := { st with decisions :=
                     alist_set st.decisions scenario.round_num label }
      match alist_get scenario.outcomes label with
      | some outcome => { st' with total_score := st'.total_score + outcome.total }
      | none => st'
    else st
  else st

/-- The instruction box of `render_outcome_display` (lines 427-439): a
non-empty text is stored for the round and applied to the team memory. -/
def submit_instruction (st : SessionState) (scenario : Scenario)
    (instruction_text : Str) : SessionState :=
  if instruction_text ≠ [] then
    { st with
      instructions := alist_set st.instructions scenario.round_num instruction_text
      team_memory := update_team_memory st.team_memory instruction_text }
  else st

/-- The `Continue to Next Round` handler of `render_outcome_display`
(lines 442-457); the display itself is only reached once a decision for the
round exists (`render_scenario_page`, line 484), and its outcome lookup is
line 407. -/
def press_continue (st : SessionState) (scenario : Scenario) (timestamp : Str) :
    SessionState :=
  match alist_get st.decisions scenario.round_num with
  | none => st
  | some choice =>
      match alist_get scenario.outcomes choice with
      | none => st
      | some outcome =>
          let record := log_round st.participant_id scenario choice outcome
            ((alist_get st.chat_histories scenario.round_num).getD [])
            ((alist_get st.instructions scenario.round_num).getD [])
            timestamp
          let st' := { st with log := st.log ++ [record],
                               current_round := st.current_round + 1 }
          if st'.scenarios.length ≤ st'.current_round then
            { st' with experiment_complete := true }
          else st'

/-- The shell inputs that complete one round: submitted chat messages with the
environment's transport results, the option button pressed, the instruction
text (empty for none), and the `time.strftime` timestamp of the log write. -/
structure RoundInput where
  chats : List (Str × TransportResult)
  label : Str
  instruction : Str
  timestamp : Str

/-- One full round against a given scenario: chat exchanges, then the
decision, then the optional adaptation, then the continue/log step. -/
def run_round (st : SessionState) (scenario : Scenario) (inp : RoundInput) :
    SessionState :=
  let st := inp.chats.foldl
    (fun s chat => render_chat_step s scenario chat.1 chat.2) st
  let st := press_option st scenario inp.label
  let st := submit_instruction st scenario inp.instruction
  press_continue st scenario inp.timestamp

/-- A session as driven by `render_scenario_page` (lines 460-491): each round
acts on `scenarios[current_round]`; with no scenario left the state is
unchanged. -/
def run_session (st : SessionState) (inputs : List RoundInput) : SessionState :=
  inputs.foldl
    (fun s inp =>
      match s.scenarios.get? s.current_round with
      | some sc => run_round s sc inp
      | none => s)
    st

/-! ## Statement helpers and concrete fixtures -/

/-- The total of the outcome a round's chosen label selects (the hypotheses of
the theorems using it guarantee the lookup succeeds). -/
def chosen_total (sc : Scenario) (inp : RoundInput) : Int :=
  ((alist_get sc.outcomes inp.label).getD
    { safety := 0, equity := 0, cost := 0, political := 0, total := 0 }).total

/-- The log-record fields claim C1 tracks: round number, chosen label, total. -/
def logProj (r : RoundRecord) : Int × Str × Int := (r.round_num, r.choice, r.total)

/-- The four outcome columns of the scenario source. -/
def outcome_columns : List Str :=
  ["option_A_outcome", "option_B_outcome", "option_C_outcome",
   "option_D_outcome"].map String.toList

/-- A concrete scenario-source row for the witnesses. -/
def mkRow (r cellA cellB cellC cellD : String) : Row :=
  [("round".toList, r.toList), ("scenario_id".toList, "s".toList),
   ("scenario_title".toList, "t".toList), ("options".toList, "o".toList),
   ("human_private_info".toList, "h".toList), ("ai_private_info".toList, "a".toList),
   ("option_A_outcome".toList, cellA.toList), ("option_B_outcome".toList, cellB.toList),
   ("option_C_outcome".toList, cellC.toList), ("option_D_outcome".toList, cellD.toList)]

/-- Two well-formed rows realizing the spec example: option `A` of round 1 has
`total = 6`, option `B` of round 2 has `total = 3`. -/
def test_rows : List Row :=
  [mkRow "1" "A: safety=2,equity=1,cost=2,political=1,total=6"
             "B: safety=0,equity=0,cost=0,political=0,total=3"
             "C: safety=0,equity=0,cost=0,political=0,total=1"
             "D: safety=0,equity=0,cost=0,political=0,total=2",
   mkRow "2" "A: safety=1,equity=1,cost=1,political=1,total=4"
             "B: safety=1,equity=1,cost=1,political=0,total=3"
             "C: safety=0,equity=0,cost=0,political=0,total=1"
             "D: safety=0,equity=0,cost=0,political=0,total=2"]

/-- Round inputs for the witnesses: choose `A` in round 1, then `B` in
round 2, with no chat and no instruction. -/
def test_inputs : List RoundInput :=
  [{ chats := [], label := "A".toList, instruction := [], timestamp := "ts1".toList },
   { chats := [], label := "B".toList, instruction := [], timestamp := "ts2".toList }]

/-- A minimal concrete scenario for the witnesses. -/
def sample_scenario : Scenario :=
  { round_num := 1, scenario_id := [], title := [], options_text := [],
    human_private_info := [], ai_private_info := [],
    outcomes := [("A".toList, { safety := 0, equity := 0, cost := 0,
                                political := 0, total := 5 })] }
theorem alist_get_set_self {κ α : Type} [DecidableEq κ] (d : List (κ × α)) (k : κ) (v : α) :
    alist_get (alist_set d k v) k = some v := by
  simp [alist_get, alist_set]

theorem alist_get_set_ne {κ α : Type} [DecidableEq κ] (d : List (κ × α)) (k k' : κ) (v : α)
    (h : k' ≠ k) : alist_get (alist_set d k v) k' = alist_get d k' := by
  simp [alist_get, alist_set, List.find?_cons, h.symm]

theorem update_team_memory_eq (m : TeamMemory) (t : Str) :
    update_team_memory m t =
      { explanation_length :=
          if shortMatches t then "short".toList
          else if longMatches t then "long".toList
          else m.explanation_length,
        focus_equity := m.focus_equity || equityMatches t,
        user_instructions := m.user_instructions ++ [t] } := by
  unfold update_team_memory shortMatches longMatches equityMatches
  dsimp only
  split <;> split <;> (try split) <;> simp_all

theorem update_focus_mono (m : TeamMemory) (t : Str) (h : m.focus_equity = true) :
    (update_team_memory m t).focus_equity = true := by
  rw [update_team_memory_eq]; simp [h]

theorem foldl_focus_mono (l : List Str) (m : TeamMemory) (h : m.focus_equity = true) :
    (l.foldl update_team_memory m).focus_equity = true := by
  induction l generalizing m with
  | nil => exact h
  | cons i rest ih => exact ih _ (update_focus_mono m i h)

theorem update_length_medium_iff (m : TeamMemory) (t : Str) :
    (update_team_memory m t).explanation_length = "medium".toList ↔
      (m.explanation_length = "medium".toList ∧ matchesLengthKeyword t = false) := by
  have hs : ("short".toList : Str) ≠ "medium".toList := by decide
  have hl : ("long".toList : Str) ≠ "medium".toList := by decide
  rw [update_team_memory_eq]
  cases h1 : shortMatches t <;> cases h2 : longMatches t <;>
    simp [matchesLengthKeyword, h1, h2, hs, hl]

theorem foldl_medium_iff (l : List Str) (m : TeamMemory) :
    ((l.foldl update_team_memory m).explanation_length = "medium".toList) ↔
      (m.explanation_length = "medium".toList ∧
        ∀ i ∈ l, matchesLengthKeyword i = false) := by
  induction l generalizing m with
  | nil => simp
  | cons i rest ih =>
      rw [List.foldl_cons, ih, update_length_medium_iff]
      constructor
      · rintro ⟨⟨hm, hi⟩, hrest⟩
        refine ⟨hm, fun j hj => ?_⟩
        rcases List.mem_cons.mp hj with rfl | hj2
        · exact hi
        · exact hrest j hj2
      · rintro ⟨hm, hall⟩
        exact ⟨⟨hm, hall i (by simp)⟩, fun j hj => hall j (by simp [hj])⟩

/-- C2: starting from the default Team Memory, `focus_equity` is a one-way
ratchet (once true it stays true after any further instructions), and
`explanation_length` is `"medium"` exactly when no instruction so far matched
a length keyword — no instruction can set it back to `"medium"`. -/
theorem C2_team_memory_ratchet (l1 l2 : List Str) :
    ((l1.foldl update_team_memory TeamMemory.initial).focus_equity = true →
      ((l1 ++ l2).foldl update_team_memory TeamMemory.initial).focus_equity = true)
    ∧ ((l1.foldl update_team_memory TeamMemory.initial).explanation_length
          = "medium".toList
        ↔ ∀ i ∈ l1, matchesLengthKeyword i = false) := by
  constructor
  · intro h
    rw [List.foldl_append]
    exact foldl_focus_mono l2 _ h
  · rw [foldl_medium_iff]
    simp [TeamMemory.initial]

/-- Witness for C2 at a concrete instruction sequence. -/
theorem C2_team_memory_ratchet_witness :
    ((["be fair".toList] ++ ["hello".toList]).foldl update_team_memory
      TeamMemory.initial).focus_equity = true :=
  (C2_team_memory_ratchet ["be fair".toList] ["hello".toList]).1 (by decide)

/-- C3: `update_team_memory` always appends the raw instruction verbatim as
the new last history entry; the shorten family is checked before and excludes
the lengthen family for `explanation_length`, while the equity family acts
independently; the instruction "please be concise and more equity focused"
yields `explanation_length = "short"`, `focus_equity = true`, and that text
verbatim as the last history entry. -/
theorem C3_update_team_memory_cases (m : TeamMemory) (t : Str) :
    (update_team_memory m t).user_instructions = m.user_instructions ++ [t]
    ∧ (shortMatches t = true →
        (update_team_memory m t).explanation_length = "short".toList)
    ∧ (shortMatches t = false → longMatches t = true →
        (update_team_memory m t).explanation_length = "long".toList)
    ∧ (shortMatches t = false → longMatches t = false →
        (update_team_memory m t).explanation_length = m.explanation_length)
    ∧ (update_team_memory m t).focus_equity = (m.focus_equity || equityMatches t)
    ∧ ((update_team_memory m "please be concise and more equity focused".toList).explanation_length
          = "short".toList
       ∧ (update_team_memory m "please be concise and more equity focused".toList).focus_equity
          = true
       ∧ (update_team_memory m "please be concise and more equity focused".toList).user_instructions.getLast?
          = some "please be concise and more equity focused".toList) := by
  refine ⟨?_, ?_, ?_, ?_, ?_, ?_, ?_, ?_⟩
  · rw [update_team_memory_eq]
  · intro h; rw [update_team_memory_eq]; simp [h]
  · intro h1 h2; rw [update_team_memory_eq]; simp [h1, h2]
  · intro h1 h2; rw [update_team_memory_eq]; simp [h1, h2]
  · rw [update_team_memory_eq]
  · rw [update_team_memory_eq]
    dsimp only
    split
    · rfl
    · rename_i h
      exact absurd h (by decide)
  · rw [update_team_memory_eq]
    dsimp only
    simp only [Bool.or_eq_true]
    exact Or.inr (by decide)
  · rw [update_team_memory_eq]
    simp [List.getLast?_concat]

/-- Witness for C3 at a concrete memory and instruction. -/
theorem C3_update_team_memory_cases_witness :
    (update_team_memory TeamMemory.initial "be brief".toList).explanation_length
      = "short".toList :=
  (C3_update_team_memory_cases TeamMemory.initial "be brief".toList).2.1 (by decide)

/-- C8 counterexample: applying the same instruction twice does not equal
applying it once — the history gains a duplicate entry. -/
theorem C8_not_idempotent :
    update_team_memory (update_team_memory TeamMemory.initial "be brief".toList)
        "be brief".toList
      ≠ update_team_memory TeamMemory.initial "be brief".toList := by
  decide

/-- C8 (amended): applying `update_team_memory` twice with the same text is
idempotent on `explanation_length` and `focus_equity`, but appends the
instruction text to the history a second time, so the full state differs. -/
theorem C8_flags_idempotent (m : TeamMemory) (t : Str) :
    (update_team_memory (update_team_memory m t) t).explanation_length
        = (update_team_memory m t).explanation_length
    ∧ (update_team_memory (update_team_memory m t) t).focus_equity
        = (update_team_memory m t).focus_equity
    ∧ (update_team_memory (update_team_memory m t) t).user_instructions
        = (update_team_memory m t).user_instructions ++ [t] := by
  refine ⟨?_, ?_, ?_⟩
  · rw [update_team_memory_eq, update_team_memory_eq]
    cases h1 : shortMatches t <;> cases h2 : longMatches t <;> simp [h1, h2]
  · rw [update_team_memory_eq, update_team_memory_eq]
    cases h : equityMatches t <;> simp [h]
  · rw [update_team_memory_eq, update_team_memory_eq]

/-- C7: the system prompt is the fixed preamble carrying the scenario's
AI-private text verbatim, then the equity directive exactly when
`focus_equity` is true, then one length directive chosen by a three-way
branch on `explanation_length` with the 3–4 sentence text as the default for
every value other than `"short"` and `"long"`. -/
theorem C7_system_prompt_structure (sc : Scenario) (tm : TeamMemory) :
    system_prompt sc tm =
      (prompt_header ++ sc.ai_private_info ++ prompt_role)
        ++ (if tm.focus_equity then equity_directive else [])
        ++ (if tm.explanation_length = "short".toList then short_directive
            else if tm.explanation_length = "long".toList then long_directive
            else medium_directive) := by
  unfold system_prompt
  dsimp only
  cases h : tm.focus_equity <;> split <;> (try split) <;> simp [List.append_assoc]

theorem press_option_invalid (st : SessionState) (sc : Scenario) (label : Str)
    (h : label ∉ validLabels) : press_option st sc label = st := by
  unfold press_option
  rw [if_neg h]

/-- C10: a decision label outside the fixed valid set is rejected without any
state transition: the session state is unchanged, so in particular the
cumulative score, the round's chat history, and the Team Memory are not
mutated. -/
theorem C10_invalid_label_rejected (st : SessionState) (sc : Scenario) (label : Str)
    (h : label ∉ validLabels) :
    press_option st sc label = st
    ∧ (press_option st sc label).total_score = st.total_score
    ∧ (press_option st sc label).chat_histories = st.chat_histories
    ∧ (press_option st sc label).team_memory = st.team_memory
    ∧ (press_option st sc label).decisions = st.decisions := by
  have h0 := press_option_invalid st sc label h
  exact ⟨h0, by rw [h0], by rw [h0], by rw [h0], by rw [h0]⟩

/-- Witness for C10 at the label `"E"`. -/
theorem C10_invalid_label_rejected_witness :
    press_option initial_session sample_scenario "E".toList = initial_session :=
  (C10_invalid_label_rejected initial_session sample_scenario "E".toList (by decide)).1

theorem init_log_idem (f : LogFile) : init_log (init_log f) = init_log f := by
  cases f <;> rfl

/-- C9: `init_log` creates an absent destination with the fixed 12-column
header row, leaves an existing destination exactly as it is, and any number
of re-invocations equals a single invocation — the header is never altered,
duplicated, or truncated. -/
theorem C9_init_log_idempotent (rows : List (List Str)) (f : LogFile) (n : Nat) :
    init_log none = some [LOG_HEADER]
    ∧ LOG_HEADER.length = 12
    ∧ init_log (some rows) = some rows
    ∧ init_log^[n + 1] f = init_log f := by
  refine ⟨rfl, by decide, rfl, ?_⟩
  induction n with
  | zero => rfl
  | succ k ih =>
      rw [Function.iterate_succ_apply', ih, init_log_idem]

theorem render_chat_step_preserves (st : SessionState) (sc : Scenario) (msg : Str)
    (r : TransportResult) :
    (render_chat_step st sc msg r).decisions = st.decisions
    ∧ (render_chat_step st sc msg r).total_score = st.total_score
    ∧ (render_chat_step st sc msg r).log = st.log
    ∧ (render_chat_step st sc msg r).current_round = st.current_round
    ∧ (render_chat_step st sc msg r).scenarios = st.scenarios
    ∧ (render_chat_step st sc msg r).participant_id = st.participant_id
    ∧ (render_chat_step st sc msg r).team_memory = st.team_memory
    ∧ (render_chat_step st sc msg r).instructions = st.instructions := by
  unfold render_chat_step
  split <;> simp

theorem render_chat_step_history (st : SessionState) (sc : Scenario) (msg : Str)
    (r : TransportResult) (h : msg ≠ []) :
    alist_get (render_chat_step st sc msg r).chat_histories sc.round_num
      = some ((alist_get st.chat_histories sc.round_num).getD []
          ++ [("participant".toList, msg), ("ai".toList, extract_ai_text r)]) := by
  unfold render_chat_step
  rw [if_neg h]
  dsimp only
  rw [alist_get_set_self]
  simp [generate_ai_reply]

theorem press_option_decides (st : SessionState) (sc : Scenario) (label : Str)
    (hl : label ∈ validLabels) (hnd : alist_get st.decisions sc.round_num = none) :
    alist_get (press_option st sc label).decisions sc.round_num = some label := by
  unfold press_option
  rw [if_pos hl, if_pos hnd]
  dsimp only
  cases h : alist_get sc.outcomes label <;> simp [alist_get_set_self]

/-- C4: the gateway call never raises: a transport failure yields the in-band
error-marker text, an empty or missing reply yields the no-content sentinel,
the chat history still gains the AI turn carrying that text, and after a
failing exchange the round can still record a decision. -/
theorem C4_gateway_never_raises (e s : Str) (st : SessionState) (sc : Scenario)
    (msg : Str) (r : TransportResult) :
    extract_ai_text (TransportResult.failure e)
        = "[Error contacting AI teammate: ".toList ++ e ++ "]".toList
    ∧ extract_ai_text (TransportResult.success none)
        = "[AI did not return any content.]".toList
    ∧ extract_ai_text (TransportResult.success (some none))
        = "[AI did not return any content.]".toList
    ∧ (trimStr s = [] →
        extract_ai_text (TransportResult.success (some (some s)))
          = "[AI did not return any content.]".toList)
    ∧ (msg ≠ [] →
        alist_get (render_chat_step st sc msg r).chat_histories sc.round_num
          = some ((alist_get st.chat_histories sc.round_num).getD []
              ++ [("participant".toList, msg),
                  ("ai".toList, extract_ai_text r)]))
    ∧ (msg ≠ [] → alist_get st.decisions sc.round_num = none →
        alist_get (press_option
            (render_chat_step st sc msg (TransportResult.failure e)) sc
            "A".toList).decisions sc.round_num
          = some "A".toList) := by
  refine ⟨rfl, rfl, rfl, ?_, ?_, ?_⟩
  · intro h
    simp [extract_ai_text, h]
  · exact render_chat_step_history st sc msg r
  · intro hmsg hnd
    have hpres := (render_chat_step_preserves st sc msg (TransportResult.failure e)).1
    exact press_option_decides _ sc "A".toList (by decide) (by rw [hpres]; exact hnd)

/-- Witness for C4 at concrete inputs. -/
theorem C4_gateway_never_raises_witness :
    extract_ai_text (TransportResult.success (some (some "  ".toList)))
        = "[AI did not return any content.]".toList
    ∧ alist_get (press_option
        (render_chat_step initial_session sample_scenario "hi".toList
          (TransportResult.failure "boom".toList)) sample_scenario
        "A".toList).decisions sample_scenario.round_num = some "A".toList := by
  refine ⟨?_, ?_⟩
  · exact (C4_gateway_never_raises "boom".toList "  ".toList initial_session
      sample_scenario "hi".toList (TransportResult.failure "boom".toList)).2.2.2.1
      (by decide)
  · exact (C4_gateway_never_raises "boom".toList "  ".toList initial_session
      sample_scenario "hi".toList (TransportResult.failure "boom".toList)).2.2.2.2.2
      (by decide) (by decide)


theorem row_to_scenario_outcomes (row : Row) (sc : Scenario)
    (h : row_to_scenario row = some sc) :
    ∃ oA oB oC oD, sc.outcomes =
      [("A".toList, oA), ("B".toList, oB), ("C".toList, oC), ("D".toList, oD)] := by
  unfold row_to_scenario at h
  split at h
  · split at h
    · injection h with h2
      subst h2
      exact ⟨_, _, _, _, rfl⟩
    · simp at h
  · simp at h

theorem load_rows_mem (rows : List Row) (l : List Scenario)
    (h : load_rows rows = some l) :
    ∀ sc ∈ l, ∃ row ∈ rows, row_to_scenario row = some sc := by
  induction rows generalizing l with
  | nil =>
      simp [load_rows] at h
      subst h
      intro sc hsc
      simp at hsc
  | cons row rest ih =>
      unfold load_rows at h
      cases h1 : row_to_scenario row with
      | none => rw [h1] at h; simp at h
      | some sc0 =>
          rw [h1] at h
          cases h2 : load_rows rest with
          | none => rw [h2] at h; simp at h
          | some l0 =>
              rw [h2] at h
              simp at h
              subst h
              intro sc hsc
              rcases List.mem_cons.mp hsc with rfl | hsc2
              · exact ⟨row, by simp, h1⟩
              · obtain ⟨r, hr, hrs⟩ := ih l0 h2 sc hsc2
                exact ⟨r, by simp [hr], hrs⟩

theorem parse_outcome_cell_total (cell : Str) (oc : Outcome)
    (h : parse_outcome_cell cell = some oc) :
    ∃ values, outcome_values (cell_body cell) = some values
      ∧ alist_get values "total".toList = some oc.total := by
  unfold parse_outcome_cell at h
  split at h
  · simp at h
  · rename_i values hvals
    split at h
    · rename_i safety equity cost political total hs he hc hp ht
      refine ⟨values, hvals, ?_⟩
      injection h with h2
      rw [← h2]
      exact ht
    · simp at h

theorem load_scenarios_inv (rows : List Row) (scs : List Scenario)
    (h : load_scenarios rows = some scs) :
    ∃ l, load_rows rows = some l ∧ scs = List.insertionSort scenarioLE l := by
  unfold load_scenarios at h
  cases h1 : load_rows rows with
  | none => rw [h1] at h; simp at h
  | some l =>
      rw [h1] at h
      simp at h
      exact ⟨l, rfl, h.symm⟩

theorem load_scenarios_outcomes (rows : List Row) (scs : List Scenario)
    (hload : load_scenarios rows = some scs) :
    ∀ sc ∈ scs, ∀ l ∈ validLabels, (alist_get sc.outcomes l).isSome = true := by
  obtain ⟨l0, hl0, hsort⟩ := load_scenarios_inv rows scs hload
  intro sc hsc lab hlab
  have hmem : sc ∈ l0 := by
    have hperm := List.perm_insertionSort scenarioLE l0
    rw [hsort] at hsc
    exact hperm.mem_iff.mp hsc
  obtain ⟨row, _, hrow⟩ := load_rows_mem rows l0 hl0 sc hmem
  obtain ⟨oA, oB, oC, oD, houts⟩ := row_to_scenario_outcomes row sc hrow
  rw [houts]
  rcases show lab = "A".toList ∨ lab = "B".toList ∨ lab = "C".toList
      ∨ lab = "D".toList from by simpa [validLabels] using hlab with
    rfl | rfl | rfl | rfl <;> rfl

/-- C5: a successful load yields scenarios sorted strictly ascending by
`round_num` (strict given the spec's no-duplicate-rounds well-formedness),
every returned scenario has an outcome entry for each of the labels
`A`, `B`, `C`, `D`, and each parsed outcome's `total` is exactly the integer
bound to the `total` key of the source cell, never recomputed from the four
component scores (witnessed by a cell whose `total` is not the component
sum). -/
theorem C5_load_well_formed (rows : List Row) (scs : List Scenario)
    (hload : load_scenarios rows = some scs)
    (hnd : (scs.map Scenario.round_num).Nodup) :
    scs.Pairwise (fun a b => a.round_num < b.round_num)
    ∧ (∀ sc ∈ scs, ∀ l ∈ validLabels, (alist_get sc.outcomes l).isSome = true)
    ∧ (∀ cell oc, parse_outcome_cell cell = some oc →
        ∃ values, outcome_values (cell_body cell) = some values
          ∧ alist_get values "total".toList = some oc.total)
    ∧ parse_outcome_cell "A: safety=2,equity=1,cost=2,political=1,total=100".toList
        = some { safety := 2, equity := 1, cost := 2, political := 1, total := 100 } := by
  obtain ⟨l, hl, hsort⟩ := load_scenarios_inv rows scs hload
  refine ⟨?_, ?_, ?_, by decide⟩
  · have hs : scs.Pairwise scenarioLE := by
      rw [hsort]; exact List.sorted_insertionSort scenarioLE l
    have hne : scs.Pairwise (fun a b => a.round_num ≠ b.round_num) :=
      List.pairwise_map.mp hnd
    exact (hs.and hne).imp (fun h => lt_of_le_of_ne h.1 h.2)
  · exact load_scenarios_outcomes rows scs hload
  · exact parse_outcome_cell_total

/-- Witness for C5 at the concrete two-row source. -/
theorem C5_load_well_formed_witness :
    ((load_scenarios test_rows).getD []).Pairwise
      (fun a b => a.round_num < b.round_num) :=
  (C5_load_well_formed test_rows ((load_scenarios test_rows).getD [])
    (by decide) (by decide)).1

theorem load_rows_none_of_mem (rows : List Row) (row : Row) (hmem : row ∈ rows)
    (hbad : row_to_scenario row = none) : load_rows rows = none := by
  induction rows with
  | nil => simp at hmem
  | cons r rest ih =>
      rcases List.mem_cons.mp hmem with rfl | hmem2
      · simp [load_rows, hbad]
      · cases h : row_to_scenario r <;> simp [load_rows, h, ih hmem2]

theorem row_to_scenario_none_round (row : Row)
    (h : (alist_get row "round".toList).bind pyInt = none) :
    row_to_scenario row = none := by
  unfold row_to_scenario
  split
  · split
    · simp_all
    · rfl
  · rfl

theorem row_to_scenario_none_cell (row : Row) (col : Str)
    (hcol : col ∈ outcome_columns)
    (h : (alist_get row col).bind parse_outcome_cell = none) :
    row_to_scenario row = none := by
  rcases show col = "option_A_outcome".toList ∨ col = "option_B_outcome".toList
      ∨ col = "option_C_outcome".toList ∨ col = "option_D_outcome".toList from by
    simpa [outcome_columns] using hcol with rfl | rfl | rfl | rfl <;>
  · unfold row_to_scenario
    split
    · split
      · simp_all
      · rfl
    · rfl

/-- C6: loading fails (the modelled scenario-load exception) whenever some
row's `round` is missing or not an integer, or some required option outcome
cell is missing or cannot be parsed into the five numeric fields; the failure
aborts session start, leaving `experiment_started` false. -/
theorem C6_malformed_source_fatal (pid : Str) (rows : List Row) (row : Row)
    (hmem : row ∈ rows)
    (hbad : (alist_get row "round".toList).bind pyInt = none
      ∨ ∃ col ∈ outcome_columns,
          (alist_get row col).bind parse_outcome_cell = none) :
    load_scenarios rows = none
    ∧ (start_experiment pid rows).experiment_started = false := by
  have hrow : row_to_scenario row = none := by
    rcases hbad with h | ⟨col, hcol, h⟩
    · exact row_to_scenario_none_round row h
    · exact row_to_scenario_none_cell row col hcol h
  have hload : load_scenarios rows = none := by
    unfold load_scenarios
    rw [load_rows_none_of_mem rows row hmem hrow]
    rfl
  refine ⟨hload, ?_⟩
  unfold start_experiment
  rw [hload]
  rfl

/-- Witness for C6: a row whose `round` cell is not an integer. -/
theorem C6_malformed_source_fatal_witness :
    load_scenarios [mkRow "x" "A: safety=2,equity=1,cost=2,political=1,total=6"
        "B: safety=0,equity=0,cost=0,political=0,total=3"
        "C: safety=0,equity=0,cost=0,political=0,total=1"
        "D: safety=0,equity=0,cost=0,political=0,total=2"] = none :=
  (C6_malformed_source_fatal "p".toList _
    (mkRow "x" "A: safety=2,equity=1,cost=2,political=1,total=6"
        "B: safety=0,equity=0,cost=0,political=0,total=3"
        "C: safety=0,equity=0,cost=0,political=0,total=1"
        "D: safety=0,equity=0,cost=0,political=0,total=2")
    (by decide) (Or.inl (by decide))).1

theorem submit_instruction_preserves (st : SessionState) (sc : Scenario) (txt : Str) :
    (submit_instruction st sc txt).decisions = st.decisions
    ∧ (submit_instruction st sc txt).total_score = st.total_score
    ∧ (submit_instruction st sc txt).log = st.log
    ∧ (submit_instruction st sc txt).current_round = st.current_round
    ∧ (submit_instruction st sc txt).scenarios = st.scenarios
    ∧ (submit_instruction st sc txt).participant_id = st.participant_id := by
  unfold submit_instruction
  split <;> simp

theorem chat_fold_preserves (chats : List (Str × TransportResult))
    (st : SessionState) (sc : Scenario) :
    (chats.foldl (fun s chat => render_chat_step s sc chat.1 chat.2) st).decisions
        = st.decisions
    ∧ (chats.foldl (fun s chat => render_chat_step s sc chat.1 chat.2) st).total_score
        = st.total_score
    ∧ (chats.foldl (fun s chat => render_chat_step s sc chat.1 chat.2) st).log
        = st.log
    ∧ (chats.foldl (fun s chat => render_chat_step s sc chat.1 chat.2) st).current_round
        = st.current_round
    ∧ (chats.foldl (fun s chat => render_chat_step s sc chat.1 chat.2) st).scenarios
        = st.scenarios
    ∧ (chats.foldl (fun s chat => render_chat_step s sc chat.1 chat.2) st).participant_id
        = st.participant_id := by
  induction chats generalizing st with
  | nil => exact ⟨rfl, rfl, rfl, rfl, rfl, rfl⟩
  | cons c rest ih =>
      obtain ⟨i1, i2, i3, i4, i5, i6⟩ := ih (render_chat_step st sc c.1 c.2)
      obtain ⟨p1, p2, p3, p4, p5, p6, _, _⟩ :=
        render_chat_step_preserves st sc c.1 c.2
      exact ⟨i1.trans p1, i2.trans p2, i3.trans p3, i4.trans p4,
             i5.trans p5, i6.trans p6⟩

theorem press_option_spec (st : SessionState) (sc : Scenario) (label : Str)
    (oc : Outcome) (hl : label ∈ validLabels)
    (hout : alist_get sc.outcomes label = some oc)
    (hnd : alist_get st.decisions sc.round_num = none) :
    press_option st sc label =
      { st with decisions := alist_set st.decisions sc.round_num label,
                total_score := st.total_score + oc.total } := by
  unfold press_option
  rw [if_pos hl, if_pos hnd]
  dsimp only
  rw [hout]

theorem press_option_decided (st : SessionState) (sc : Scenario) (l : Str)
    (h : alist_get st.decisions sc.round_num ≠ none) :
    press_option st sc l = st := by
  unfold press_option
  split <;> rfl

theorem press_continue_spec (st : SessionState) (sc : Scenario) (ts : Str)
    (label : Str) (oc : Outcome)
    (hdec : alist_get st.decisions sc.round_num = some label)
    (hout : alist_get sc.outcomes label = some oc) :
    (press_continue st sc ts).total_score = st.total_score
    ∧ (press_continue st sc ts).log
        = st.log ++ [log_round st.participant_id sc label oc
            ((alist_get st.chat_histories sc.round_num).getD [])
            ((alist_get st.instructions sc.round_num).getD []) ts]
    ∧ (press_continue st sc ts).current_round = st.current_round + 1
    ∧ (press_continue st sc ts).scenarios = st.scenarios
    ∧ (press_continue st sc ts).decisions = st.decisions := by
  unfold press_continue
  rw [hdec]
  dsimp only
  rw [hout]
  dsimp only
  split <;> exact ⟨rfl, rfl, rfl, rfl, rfl⟩

theorem run_round_spec (st : SessionState) (sc : Scenario) (inp : RoundInput)
    (oc : Outcome) (hl : inp.label ∈ validLabels)
    (hout : alist_get sc.outcomes inp.label = some oc)
    (hnd : alist_get st.decisions sc.round_num = none) :
    (run_round st sc inp).total_score = st.total_score + oc.total
    ∧ (run_round st sc inp).log.map logProj
        = st.log.map logProj ++ [(sc.round_num, inp.label, oc.total)]
    ∧ (run_round st sc inp).current_round = st.current_round + 1
    ∧ (run_round st sc inp).scenarios = st.scenarios
    ∧ (run_round st sc inp).decisions
        = alist_set st.decisions sc.round_num inp.label := by
  unfold run_round
  dsimp only
  generalize hst1 :
    inp.chats.foldl (fun s chat => render_chat_step s sc chat.1 chat.2) st = st1
  obtain ⟨c1, c2, c3, c4, c5, c6⟩ := hst1 ▸ chat_fold_preserves inp.chats st sc
  have hnd1 : alist_get st1.decisions sc.round_num = none := by
    rw [c1]; exact hnd
  rw [press_option_spec st1 sc inp.label oc hl hout hnd1]
  set stR := { st1 with
    decisions := alist_set st1.decisions sc.round_num inp.label,
    total_score := st1.total_score + oc.total } with hstR
  obtain ⟨s1, s2, s3, s4, s5, s6⟩ := submit_instruction_preserves stR sc inp.instruction
  have hdec3 : alist_get (submit_instruction stR sc inp.instruction).decisions
      sc.round_num = some inp.label := by
    rw [s1]
    exact alist_get_set_self _ _ _
  obtain ⟨t1, t2, t3, t4, t5⟩ := press_continue_spec
    (submit_instruction stR sc inp.instruction) sc inp.timestamp inp.label oc
    hdec3 hout
  refine ⟨?_, ?_, ?_, ?_, ?_⟩
  · rw [t1, s2, hstR]
    dsimp only
    rw [c2]
  · rw [t2, List.map_append, s3, hstR]
    dsimp only
    rw [c3]
    rfl
  · rw [t3, s4, hstR]
    dsimp only
    rw [c4]
  · rw [t4, s5, hstR]
    dsimp only
    rw [c5]
  · rw [t5, s1, hstR]
    dsimp only
    rw [c1]

theorem drop_get_cons {α : Type} (l : List α) (n : Nat) (a : α)
    (h : l.get? n = some a) : l.drop n = a :: l.drop (n + 1) := by
  rw [List.get?_eq_getElem?] at h
  have hlt : n < l.length := (List.getElem?_eq_some.mp h).1
  rw [List.drop_eq_getElem_cons hlt]
  obtain ⟨hh, hg⟩ := List.getElem?_eq_some.mp h
  rw [hg]

theorem chosen_total_eq (sc : Scenario) (inp : RoundInput) (oc : Outcome)
    (h : alist_get sc.outcomes inp.label = some oc) :
    chosen_total sc inp = oc.total := by
  unfold chosen_total
  rw [h]
  rfl

theorem run_session_spec (inputs : List RoundInput) (st : SessionState)
    (hlab : ∀ inp ∈ inputs, inp.label ∈ validLabels)
    (hout : ∀ sc ∈ st.scenarios.drop st.current_round, ∀ l ∈ validLabels,
        (alist_get sc.outcomes l).isSome = true)
    (hnd : ((st.scenarios.drop st.current_round).map Scenario.round_num).Nodup)
    (hdec : ∀ sc ∈ st.scenarios.drop st.current_round,
        alist_get st.decisions sc.round_num = none) :
    (run_session st inputs).total_score
        = st.total_score + (((st.scenarios.drop st.current_round).zip inputs).map
            (fun p => chosen_total p.1 p.2)).sum
    ∧ (run_session st inputs).log.map logProj
        = st.log.map logProj
          ++ ((st.scenarios.drop st.current_round).zip inputs).map
            (fun p => (p.1.round_num, p.2.label, chosen_total p.1 p.2)) := by
  induction inputs generalizing st with
  | nil => simp [run_session]
  | cons inp rest ih =>
      cases hget : st.scenarios.get? st.current_round with
      | none =>
          have hdrop : st.scenarios.drop st.current_round = [] := by
            rw [List.drop_eq_nil_iff]
            exact List.get?_eq_none.mp hget
          have hstep : run_session st (inp :: rest) = run_session st rest := by
            unfold run_session
            rw [List.foldl_cons]
            simp only [hget]
          obtain ⟨ht, hlg⟩ := ih st (fun i hi => hlab i (by simp [hi])) hout hnd hdec
          rw [hdrop] at ht hlg
          rw [hstep, hdrop]
          simp only [List.zip_nil_left, List.map_nil, List.sum_nil, List.append_nil] at ht hlg ⊢
          exact ⟨ht, hlg⟩
      | some sc =>
          have htail : st.scenarios.drop st.current_round
              = sc :: st.scenarios.drop (st.current_round + 1) :=
            drop_get_cons st.scenarios st.current_round sc hget
          have hmem0 : sc ∈ st.scenarios.drop st.current_round := by
            rw [htail]; simp
          have hlabel : inp.label ∈ validLabels := hlab inp (by simp)
          obtain ⟨oc, hoc⟩ : ∃ oc, alist_get sc.outcomes inp.label = some oc :=
            Option.isSome_iff_exists.mp (hout sc hmem0 inp.label hlabel)
          have hndc : alist_get st.decisions sc.round_num = none := hdec sc hmem0
          obtain ⟨r1, r2, r3, r4, r5⟩ := run_round_spec st sc inp oc hlabel hoc hndc
          have hstep : run_session st (inp :: rest)
              = run_session (run_round st sc inp) rest := by
            unfold run_session
            rw [List.foldl_cons]
            simp only [hget]
          have hdrop2 : (run_round st sc inp).scenarios.drop
              (run_round st sc inp).current_round
              = st.scenarios.drop (st.current_round + 1) := by
            rw [r4, r3]
          have hndtail : ((st.scenarios.drop (st.current_round + 1)).map
              Scenario.round_num).Nodup := by
            rw [htail, List.map_cons] at hnd
            exact hnd.of_cons
          have hrnnotin : sc.round_num ∉ (st.scenarios.drop
              (st.current_round + 1)).map Scenario.round_num := by
            rw [htail, List.map_cons] at hnd
            exact (List.nodup_cons.mp hnd).1
          obtain ⟨ht, hlg⟩ := ih (run_round st sc inp)
            (fun i hi => hlab i (by simp [hi]))
            (by
              rw [hdrop2]
              intro sc2 hsc2 l hl2
              exact hout sc2 (by rw [htail]; exact List.mem_cons_of_mem _ hsc2) l hl2)
            (by rw [hdrop2]; exact hndtail)
            (by
              rw [hdrop2]
              intro sc2 hsc2
              rw [r5]
              have hne : sc2.round_num ≠ sc.round_num := fun he =>
                hrnnotin (he ▸ List.mem_map_of_mem Scenario.round_num hsc2)
              rw [alist_get_set_ne _ _ _ _ hne]
              exact hdec sc2 (by rw [htail]; exact List.mem_cons_of_mem _ hsc2))
          rw [hstep]
          constructor
          · rw [ht, hdrop2, r1, htail, List.zip_cons_cons, List.map_cons,
              List.sum_cons, chosen_total_eq sc inp oc hoc]
            ring
          · rw [hlg, hdrop2, r2, htail, List.zip_cons_cons, List.map_cons,
              chosen_total_eq sc inp oc hoc, List.append_assoc,
              List.singleton_append]

/-- C1: a session over a loaded catalog is a fold over the scenarios in
catalog order: after any number `k` of completed rounds the cumulative score
is the sum of the chosen options' `total` values over the rounds decided so
far, exactly one record is appended per completed round, in round order with
the chosen label and its total, and a round whose decision already exists is
never scored again. -/
theorem C1_session_fold (pid : Str) (rows : List Row) (scs : List Scenario)
    (inputs : List RoundInput) (k : Nat)
    (hload : load_scenarios rows = some scs)
    (hnd : (scs.map Scenario.round_num).Nodup)
    (hlab : ∀ inp ∈ inputs, inp.label ∈ validLabels) :
    ((run_session (start_experiment pid rows) (inputs.take k)).total_score
        = ((scs.zip (inputs.take k)).map (fun p => chosen_total p.1 p.2)).sum
      ∧ (run_session (start_experiment pid rows) (inputs.take k)).log.map logProj
        = (scs.zip (inputs.take k)).map
            (fun p => (p.1.round_num, p.2.label, chosen_total p.1 p.2)))
    ∧ ∀ (st : SessionState) (sc : Scenario) (l : Str),
        alist_get st.decisions sc.round_num ≠ none → press_option st sc l = st := by
  constructor
  · have hst0 : start_experiment pid rows =
        { initial_session with
          participant_id :=
            if trimStr pid ≠ [] then trimStr pid else "anonymous".toList,
          scenarios := scs, current_round := 0, experiment_started := true } := by
      unfold start_experiment
      rw [hload]
    obtain ⟨ht, hlg⟩ := run_session_spec (inputs.take k) (start_experiment pid rows)
      (fun i hi => hlab i (List.take_subset k inputs hi))
      (by
        rw [hst0]
        dsimp only
        rw [List.drop_zero]
        exact load_scenarios_outcomes rows scs hload)
      (by
        rw [hst0]
        dsimp only
        rw [List.drop_zero]
        exact hnd)
      (by
        rw [hst0]
        intro sc hsc
        rfl)
    constructor
    · rw [ht, hst0]
      simp [initial_session]
    · rw [hlg, hst0]
      simp [initial_session]
  · intro st sc l h
    exact press_option_decided st sc l h

/-- Witness for C1: choosing A (total 6) then B (total 3) over the two-round
catalog yields cumulative score 9 and two appended records. -/
theorem C1_session_fold_witness :
    (run_session (start_experiment "p".toList test_rows)
        (test_inputs.take 2)).total_score = 9
    ∧ (run_session (start_experiment "p".toList test_rows)
        (test_inputs.take 2)).log.length = 2 := by
  have h := (C1_session_fold "p".toList test_rows
    ((load_scenarios test_rows).getD []) test_inputs 2
    (by decide) (by decide) (by decide)).1
  constructor
  · exact h.1.trans (by decide)
  · have h2 := congrArg List.length h.2
    rw [List.length_map] at h2
    exact h2.trans (by decide)
